import Mathlib

/-!
Verification of the Google OAuth auth-provider identity-resolution flow
(`GoogleAuthProvider.populateIdentity`, `handler`, `refresh` in
`plugins/auth-backend/src/providers/google/provider.ts`) and of the
scaffolder plugin bootstrapper's per-provider try/catch registration
blocks (`createPlugin` in the scaffolder backend plugin).

Shallow embedding conventions:
- TypeScript objects become Lean structures with the same field names.
- `undefined`-able string fields become `Option String`; the JS truthiness
  test `!profile.email` (true for `undefined` and for the empty string)
  is embedded as `isMissingEmail`.
- The asynchronous directory lookup `identityClient.findUser` is an
  oracle parameter `IdentityClient`: a pure function from the query
  (the annotations record, as a list of key/value pairs) to either the
  found user entity or a thrown error (modelled as its message string).
- Side effects are made explicit in the result: `logs` collects the
  `logger.warn` messages emitted during the call, `lookupCalls` collects
  the queries passed to `identityClient.findUser`, in order.
- Thrown exceptions become `Except.error` carrying the message string.
-/

set_option autoImplicit false

namespace Backstage

/-- Normalized profile produced by `makeProfileInfo` (fields
`email`, `displayName`, `picture`, each possibly `undefined`). -/
structure Profile where
  email : Option String
  displayName : Option String
  picture : Option String
  deriving DecidableEq, Repr

/-- `providerInfo` of an `OAuthResponse`: token bundle from the
OAuth handshake (`idToken`, `accessToken`, `scope`, `expiresInSeconds`). -/
structure ProviderInfo where
  idToken : Option String
  accessToken : String
  scope : String
  expiresInSeconds : Option Nat
  deriving DecidableEq, Repr

/-- `backstageIdentity` field: the resolved local identity `{ id }`. -/
structure BackstageIdentity where
  id : String
  deriving DecidableEq, Repr

/-- `OAuthResponse`: `providerInfo`, `profile`, and the optional
`backstageIdentity` that `populateIdentity` fills in. -/
structure OAuthResponse where
  providerInfo : ProviderInfo
  profile : Profile
  backstageIdentity : Option BackstageIdentity
  deriving DecidableEq, Repr

/-- Metadata of a catalog user entity; `populateIdentity` reads
`user.metadata.name`. -/
structure UserMetadata where
  name : String
  deriving DecidableEq, Repr

/-- Catalog user entity returned by `identityClient.findUser`. -/
structure UserEntity where
  metadata : UserMetadata
  deriving DecidableEq, Repr

/-- A `findUser` query: the annotations record, as key/value pairs. -/
abbrev FindUserQuery : Type := List (String × String)

/-- Oracle for `identityClient.findUser`: maps a query to the found
user entity, or to the message of the error it throws. -/
abbrev IdentityClient : Type := FindUserQuery → Except String UserEntity

/-- Message of the error thrown when the profile has no (truthy) email. -/
def missingEmailMsg : String := "Google profile contained no email"

/-- Annotation key used for the directory lookup. -/
def googleEmailKey : String := "google.com/email"

/-- The `logger.warn` message emitted on the fallback path, with the
original lookup error interpolated. -/
def fallbackWarning (err : String) : String :=
  "Failed to look up user, " ++ err ++
    ", falling back to allowing login based on email pattern, this will probably break in the future"

/-- JS truthiness test `!profile.email`: true when the email is
`undefined` or the empty string. -/
def isMissingEmail : Option String → Bool
  | none => true
  | some e => e = ""

/-- Embedding of `profile.email.split('@')[0]`: the prefix of the string
before the first `'@'`, or the whole string when no `'@'` occurs
(the first element of a JS `split` on a nonempty separator). -/
def localPart (e : String) : String :=
  ⟨e.data.takeWhile (fun c => c ≠ '@')⟩

/-- Decidable equality for `Except`, so that outcomes of the embedded
operations can be compared by `decide` on concrete inputs. -/
instance exceptDecEq {ε α : Type} [DecidableEq ε] [DecidableEq α] :
    DecidableEq (Except ε α)
  | Except.ok a, Except.ok b =>
      if h : a = b then isTrue (by rw [h]) else
        isFalse (fun hc => h (Except.ok.inj hc))
  | Except.error a, Except.error b =>
      if h : a = b then isTrue (by rw [h]) else
        isFalse (fun hc => h (Except.error.inj hc))
  | Except.ok _, Except.error _ => isFalse (fun hc => Except.noConfusion hc)
  | Except.error _, Except.ok _ => isFalse (fun hc => Except.noConfusion hc)

/-- Result of one `populateIdentity` call: the returned response or the
thrown error, plus the instrumented side effects (warn-log messages and
`findUser` queries issued, in order). -/
structure PopulateResult where
  result : Except String OAuthResponse
  logs : List String
  lookupCalls : List FindUserQuery
  deriving DecidableEq, Repr

/-- Embedding of `GoogleAuthProvider.populateIdentity`:
throws when the profile email is missing/empty; otherwise queries the
directory keyed on the email and returns the response extended with the
directory's canonical id, or — when the lookup throws — logs a warning
and falls back to the local part of the email. -/
def populateIdentity (client : IdentityClient) (response : OAuthResponse) :
    PopulateResult :=
  if isMissingEmail response.profile.email then
    { result := Except.error missingEmailMsg, logs := [], lookupCalls := [] }
  else
    let email := response.profile.email.getD ""
    let query : FindUserQuery := [(googleEmailKey, email)]
    match client query with
    | Except.ok user =>
        { result := Except.ok
            { response with backstageIdentity := some { id := user.metadata.name } },
          logs := [], lookupCalls := [query] }
    | Except.error err =>
        { result := Except.ok
            { response with backstageIdentity := some { id := localPart email } },
          logs := [fallbackWarning err], lookupCalls := [query] }

/-- The resolved identity id of a `populateIdentity` outcome, when the
call succeeded and set one. -/
def resolvedId (pr : PopulateResult) : Option String :=
  match pr.result with
  | Except.ok out =>
      match out.backstageIdentity with
      | some i => some i.id
      | none => none
  | Except.error _ => none

/-- Result of `GoogleAuthProvider.handler`: the populated response and
the refresh token, paired (outside the `Except`) with the warn-log. -/
structure HandlerResult where
  response : OAuthResponse
  refreshToken : String
  deriving DecidableEq, Repr

/-- Embedding of `GoogleAuthProvider.handler`. The outcome of the
external `executeFrameHandlerStrategy` call is an oracle input: either
a handshake error (propagated unchanged) or the `{ response,
privateInfo.refreshToken }` pair, after which the response is routed
through `populateIdentity`. -/
def handler (client : IdentityClient)
    (strategyOutcome : Except String (OAuthResponse × String)) :
    Except String HandlerResult × List String :=
  match strategyOutcome with
  | Except.error e => (Except.error e, [])
  | Except.ok (response, refreshToken) =>
      let pr := populateIdentity client response
      match pr.result with
      | Except.error e => (Except.error e, pr.logs)
      | Except.ok resp =>
          (Except.ok { response := resp, refreshToken := refreshToken }, pr.logs)

/-- The `params` object returned by `executeRefreshTokenStrategy`. -/
structure TokenParams where
  id_token : Option String
  scope : String
  expires_in : Option Nat
  deriving DecidableEq, Repr

/-- The `OAuthResponse` literal that `refresh` assembles from the
refreshed tokens and the fetched profile before resolving the identity. -/
def refreshResponse (accessToken : String) (params : TokenParams)
    (profile : Profile) : OAuthResponse :=
  { providerInfo :=
      { accessToken := accessToken, idToken := params.id_token,
        expiresInSeconds := params.expires_in, scope := params.scope },
    profile := profile, backstageIdentity := none }

/-- Embedding of `GoogleAuthProvider.refresh`. The two external calls
are oracle inputs: `refreshOutcome` for `executeRefreshTokenStrategy`
(yielding `accessToken` and `params`) and `fetchProfile` for
`executeFetchUserProfileStrategy` (a function of the access token and
id token). On success the assembled response is routed through
`populateIdentity`. -/
def refresh (client : IdentityClient)
    (refreshOutcome : Except String (String × TokenParams))
    (fetchProfile : String → Option String → Except String Profile) :
    Except String OAuthResponse × List String :=
  match refreshOutcome with
  | Except.error e => (Except.error e, [])
  | Except.ok (accessToken, params) =>
      match fetchProfile accessToken params.id_token with
      | Except.error e => (Except.error e, [])
      | Except.ok profile =>
          let pr := populateIdentity client (refreshResponse accessToken params profile)
          (pr.result, pr.logs)

/-! Scaffolder plugin bootstrapper (`createPlugin`): each optional
provider block (GitHub, GitLab, Azure) reads an optional config, runs
an initialization that may throw, and in its `catch` either rethrows
an initialization error (when `NODE_ENV !== 'development'`) or logs a
skip warning. -/

/-- `NODE_ENV` value under which a failed provider init is skipped. -/
def developmentEnv : String := "development"

/-- The error message thrown outside development mode. -/
def initFailureMsg (providerName errMsg : String) : String :=
  "Failed to initialize " ++ providerName ++ " scaffolding provider, " ++ errMsg

/-- The warning logged when the provider is skipped in development. -/
def skipWarnMsg (providerName errMsg : String) : String :=
  "Skipping " ++ providerName ++ " scaffolding provider, " ++ errMsg

/-- Embedding of the shared `catch` block of the three provider
registrations in `createPlugin`: when `NODE_ENV` is not
`development`, rethrow as an initialization failure; otherwise log a
skip warning and continue without the provider. -/
def catchProviderInit (β : Type) (nodeEnv : Option String)
    (providerName errMsg : String) : Except String (Option β × List String) :=
  if nodeEnv ≠ some developmentEnv then
    Except.error (initFailureMsg providerName errMsg)
  else
    Except.ok (none, [skipWarnMsg providerName errMsg])

/-- Embedding of one optional-provider block of `createPlugin`
(`github` / `gitlab` / `azure`): when the optional config is absent the
block is skipped entirely; otherwise the `try` body `init` runs, its
registrations (abstracted as a value of `β`) are kept on success, and
its thrown error is handled by `catchProviderInit`. The result pairs
the registration outcome with the warn-log of the block. -/
def registerOptionalProvider {α β : Type} (nodeEnv : Option String)
    (providerName : String) (cfg : Option α) (init : α → Except String β) :
    Except String (Option β × List String) :=
  match cfg with
  | none => Except.ok (none, [])
  | some c =>
      match init c with
      | Except.ok reg => Except.ok (some reg, [])
      | Except.error e => catchProviderInit β nodeEnv providerName e

/- Concrete sample values used by witnesses and counterexamples. -/

/-- Sample token bundle. -/
def sampleProviderInfo : ProviderInfo :=
  { idToken := some ("idtok"), accessToken := "atok", scope := "email",
    expiresInSeconds := some 3600 }

/-- Sample response carrying the email `alice@example.com`. -/
def sampleResponse : OAuthResponse :=
  { providerInfo := sampleProviderInfo,
    profile := { email := some ("alice@example.com"), displayName := some ("Alice"),
                 picture := none },
    backstageIdentity := none }

/-- Sample response whose email has an empty local part. -/
def atResponse : OAuthResponse :=
  { providerInfo := sampleProviderInfo,
    profile := { email := some ("@example.com"), displayName := none, picture := none },
    backstageIdentity := none }

/-- Sample response with an empty email string. -/
def emptyEmailResponse : OAuthResponse :=
  { providerInfo := sampleProviderInfo,
    profile := { email := some (""), displayName := none, picture := none },
    backstageIdentity := none }

/-- Directory oracle that always throws (e.g. user not found). -/
def failClient : IdentityClient := fun _ => Except.error ("User not found")

/-- Directory oracle that always finds the user `user-alice`. -/
def okClient : IdentityClient := fun _ => Except.ok { metadata := { name := "user-alice" } }

/-- `sampleResponse` after a successful resolution against `okClient`. -/
def foundResponse : OAuthResponse :=
  { sampleResponse with backstageIdentity := some { id := "user-alice" } }

/-- Sample response whose email `alice` contains no `@` separator. -/
def plainEmailResponse : OAuthResponse :=
  { providerInfo := sampleProviderInfo,
    profile := { email := some ("alice"), displayName := none, picture := none },
    backstageIdentity := none }

/-- Sample provider `try` body whose credential initialization throws. -/
def badInit : Unit → Except String Unit := fun _ => Except.error ("bad token")

/-! Helper lemmas characterizing `populateIdentity` on each of its three
paths, shared by the claim theorems below. -/

/-- A non-empty present email is truthy. -/
theorem isMissingEmail_false (e : String) (hne : e ≠ "") :
    isMissingEmail (some e) = false := by
  simp [isMissingEmail, hne]

/-- On a missing/empty email, `populateIdentity` throws the
missing-email error, performs no lookup and logs nothing. -/
theorem populate_missing {client : IdentityClient} {r : OAuthResponse}
    (h : isMissingEmail r.profile.email = true) :
    populateIdentity client r =
      { result := Except.error missingEmailMsg, logs := [], lookupCalls := [] } := by
  unfold populateIdentity
  simp [h]

/-- On a present email and a successful lookup, `populateIdentity`
returns the response extended with the directory's canonical id,
logging nothing. -/
theorem populate_found {client : IdentityClient} {r : OAuthResponse}
    {e : String} {user : UserEntity} (he : r.profile.email = some e) (hne : e ≠ "")
    (hok : client [(googleEmailKey, e)] = Except.ok user) :
    populateIdentity client r =
      { result := Except.ok
          { r with backstageIdentity := some { id := user.metadata.name } },
        logs := [], lookupCalls := [[(googleEmailKey, e)]] } := by
  unfold populateIdentity
  rw [he]
  simp [isMissingEmail, hne, hok]

/-- On a present email and a failing lookup, `populateIdentity`
returns the response extended with the local part of the email and logs
exactly one fallback warning. -/
theorem populate_fallback {client : IdentityClient} {r : OAuthResponse}
    {e err : String} (he : r.profile.email = some e) (hne : e ≠ "")
    (hfail : client [(googleEmailKey, e)] = Except.error err) :
    populateIdentity client r =
      { result := Except.ok
          { r with backstageIdentity := some { id := localPart e } },
        logs := [fallbackWarning err], lookupCalls := [[(googleEmailKey, e)]] } := by
  unfold populateIdentity
  rw [he]
  simp [isMissingEmail, hne, hfail]

/-- Any successfully returned response is the input response with some
resolved identity written into `backstageIdentity`. -/
theorem populate_ok_shape {client : IdentityClient} {r out : OAuthResponse}
    (h : (populateIdentity client r).result = Except.ok out) :
    ∃ i : BackstageIdentity, out = { r with backstageIdentity := some i } := by
  by_cases hm : isMissingEmail r.profile.email = true
  · rw [populate_missing hm] at h
    exact absurd h (by simp)
  · cases he : r.profile.email with
    | none => exact absurd hm (by simp [isMissingEmail, he])
    | some e =>
        have hne : e ≠ "" := by
          intro hcon
          exact hm (by simp [isMissingEmail, he, hcon])
        cases hq : client [(googleEmailKey, e)] with
        | ok user =>
            rw [populate_found he hne hq] at h
            exact ⟨{ id := user.metadata.name }, (Except.ok.inj h).symm⟩
        | error err =>
            rw [populate_fallback he hne hq] at h
            exact ⟨{ id := localPart e }, (Except.ok.inj h).symm⟩

/-- On any present non-empty email, `populateIdentity` succeeds and the
returned response has its identity set, whatever the directory does. -/
theorem populate_ok_of_email {client : IdentityClient} {r : OAuthResponse}
    {e : String} (he : r.profile.email = some e) (hne : e ≠ "") :
    ∃ out, (populateIdentity client r).result = Except.ok out ∧
      out.backstageIdentity.isSome = true := by
  cases hq : client [(googleEmailKey, e)] with
  | ok user =>
      refine ⟨{ r with backstageIdentity := some { id := user.metadata.name } }, ?_, rfl⟩
      rw [populate_found he hne hq]
  | error err =>
      refine ⟨{ r with backstageIdentity := some { id := localPart e } }, ?_, rfl⟩
      rw [populate_fallback he hne hq]

/-! Claim theorems. -/

/-- C1, counterexample: the response `atResponse` has the non-empty
email `@example.com`, yet when the directory lookup fails the resolved
identity id is the empty string (the local part of the email is empty),
refuting the claim that the id is always non-empty. -/
theorem populateIdentity_empty_id_cex :
    atResponse.profile.email = some ("@example.com") ∧
    ("@example.com" : String) ≠ "" ∧
    resolvedId (populateIdentity failClient atResponse) = some ("") := by
  refine ⟨rfl, by decide, by decide⟩

/-- C1 (amended): for every input response whose profile has a
non-empty email, `populateIdentity` returns successfully with the
resolved identity present (`backstageIdentity` set), regardless of
whether the directory lookup succeeds or fails; the id itself can be
empty in edge cases (empty directory name, or fallback on an email
with an empty local part). -/
theorem populateIdentity_identity_always_set (client : IdentityClient)
    (r : OAuthResponse) (e : String) (he : r.profile.email = some e)
    (hne : e ≠ "") :
    ∃ out, (populateIdentity client r).result = Except.ok out ∧
      out.backstageIdentity.isSome = true :=
  populate_ok_of_email he hne

/-- C1 witness: at the concrete response with email `alice@example.com`
and the always-finding directory, the identity is set. -/
theorem populateIdentity_identity_always_set_witness :
    sampleResponse.profile.email = some ("alice@example.com") ∧
    ∃ out, (populateIdentity okClient sampleResponse).result = Except.ok out ∧
      out.backstageIdentity.isSome = true :=
  ⟨rfl, populateIdentity_identity_always_set okClient sampleResponse
    ("alice@example.com") rfl (by decide)⟩

/-- C2: with an absent or empty profile email, `populateIdentity`
fails with the missing-email error, issues no directory lookup call,
and logs no warning. -/
theorem populateIdentity_missing_email_rejects (client : IdentityClient)
    (r : OAuthResponse)
    (h : r.profile.email = none ∨ r.profile.email = some "") :
    populateIdentity client r =
      { result := Except.error missingEmailMsg, logs := [], lookupCalls := [] } := by
  apply populate_missing
  rcases h with h | h <;> simp [isMissingEmail, h]

/-- C2 witness: the concrete response with the empty email string fails
with the missing-email error, no lookup call, no log entry. -/
theorem populateIdentity_missing_email_rejects_witness :
    (emptyEmailResponse.profile.email = none ∨
      emptyEmailResponse.profile.email = some "") ∧
    populateIdentity okClient emptyEmailResponse =
      { result := Except.error missingEmailMsg, logs := [], lookupCalls := [] } :=
  ⟨Or.inr rfl,
    populateIdentity_missing_email_rejects okClient emptyEmailResponse (Or.inr rfl)⟩

/-- C3: when the directory lookup for a present non-empty email fails
with any error, `populateIdentity` still succeeds, the resolved id is
the local part of the email (the prefix before `@`), and exactly one
warning is logged, whose text interpolates the original lookup error. -/
theorem populateIdentity_fallback_on_lookup_failure (client : IdentityClient)
    (r : OAuthResponse) (e err : String) (he : r.profile.email = some e)
    (hne : e ≠ "") (hfail : client [(googleEmailKey, e)] = Except.error err) :
    (populateIdentity client r).result =
        Except.ok { r with backstageIdentity := some { id := localPart e } } ∧
    (populateIdentity client r).logs = [fallbackWarning err] ∧
    fallbackWarning err =
      "Failed to look up user, " ++ err ++
        ", falling back to allowing login based on email pattern, this will probably break in the future" := by
  rw [populate_fallback he hne hfail]
  exact ⟨rfl, rfl, rfl⟩

/-- C3 witness: for `alice@example.com` with the always-failing
directory, the resolved id is `alice` and the single logged warning
carries the lookup error. -/
theorem populateIdentity_fallback_on_lookup_failure_witness :
    sampleResponse.profile.email = some ("alice@example.com") ∧
    (populateIdentity failClient sampleResponse).result =
      Except.ok { sampleResponse with backstageIdentity := some { id := "alice" } } ∧
    (populateIdentity failClient sampleResponse).logs =
      [fallbackWarning ("User not found")] := by
  have h := populateIdentity_fallback_on_lookup_failure failClient sampleResponse
    ("alice@example.com") ("User not found") rfl (by decide) rfl
  refine ⟨rfl, ?_, h.2.1⟩
  rw [h.1]
  rfl

/-- C4: when the directory lookup for a present non-empty email
succeeds with user entity `user`, the resolved id is the directory's
canonical id `user.metadata.name`, nothing is logged, and the fallback
synthesis is not used. -/
theorem populateIdentity_uses_directory_id (client : IdentityClient)
    (r : OAuthResponse) (e : String) (user : UserEntity)
    (he : r.profile.email = some e) (hne : e ≠ "")
    (hok : client [(googleEmailKey, e)] = Except.ok user) :
    populateIdentity client r =
      { result := Except.ok
          { r with backstageIdentity := some { id := user.metadata.name } },
        logs := [], lookupCalls := [[(googleEmailKey, e)]] } :=
  populate_found he hne hok

/-- C4 witness: with the directory returning `user-alice` for
`alice@example.com`, the resolved id is `user-alice`. -/
theorem populateIdentity_uses_directory_id_witness :
    okClient [(googleEmailKey, "alice@example.com")] =
      Except.ok { metadata := { name := "user-alice" } } ∧
    populateIdentity okClient sampleResponse =
      { result := Except.ok
          { sampleResponse with backstageIdentity := some { id := "user-alice" } },
        logs := [],
        lookupCalls := [[(googleEmailKey, "alice@example.com")]] } :=
  ⟨rfl, populateIdentity_uses_directory_id okClient sampleResponse
    ("alice@example.com") { metadata := { name := "user-alice" } } rfl (by decide) rfl⟩

/-- C5: a lookup failure is never surfaced to the caller: for every
directory behavior, `populateIdentity` on a present non-empty email
returns successfully; and whenever it does fail, the error is the
missing-email error and the email was indeed missing/empty. -/
theorem populateIdentity_lookup_error_never_surfaced (client : IdentityClient)
    (r : OAuthResponse) (e : String) (he : r.profile.email = some e)
    (hne : e ≠ "") :
    (∃ out, (populateIdentity client r).result = Except.ok out) ∧
    ∀ msg, (populateIdentity client r).result ≠ Except.error msg := by
  obtain ⟨out, hout, -⟩ := @populate_ok_of_email client r e he hne
  refine ⟨⟨out, hout⟩, ?_⟩
  intro msg hcon
  rw [hout] at hcon
  exact Except.noConfusion hcon

/-- C5 witness: with the always-failing directory and email
`alice@example.com`, the call still succeeds. -/
theorem populateIdentity_lookup_error_never_surfaced_witness :
    sampleResponse.profile.email = some ("alice@example.com") ∧
    (∃ out, (populateIdentity failClient sampleResponse).result = Except.ok out) ∧
    ∀ msg, (populateIdentity failClient sampleResponse).result ≠ Except.error msg :=
  ⟨rfl, populateIdentity_lookup_error_never_surfaced failClient sampleResponse
    ("alice@example.com") rfl (by decide)⟩

/-- C6: `populateIdentity` is deterministic in the input response and
the directory state: two calls with equal clients and equal responses
resolve equal identity ids (indeed equal whole outcomes, the resolved
id being what the claim compares). -/
theorem populateIdentity_deterministic (c₁ c₂ : IdentityClient)
    (r₁ r₂ : OAuthResponse) (hc : c₁ = c₂) (hr : r₁ = r₂) :
    resolvedId (populateIdentity c₁ r₁) = resolvedId (populateIdentity c₂ r₂) ∧
    populateIdentity c₁ r₁ = populateIdentity c₂ r₂ := by
  rw [hc, hr]
  exact ⟨rfl, rfl⟩

/-- C6 witness: two identical calls on the sample response and the
always-failing directory agree. -/
theorem populateIdentity_deterministic_witness :
    resolvedId (populateIdentity failClient sampleResponse) =
      resolvedId (populateIdentity failClient sampleResponse) ∧
    populateIdentity failClient sampleResponse =
      populateIdentity failClient sampleResponse :=
  populateIdentity_deterministic failClient failClient sampleResponse sampleResponse
    rfl rfl

/-- C7: every successfully returned response keeps the input's
`providerInfo` and `profile` unchanged and has `backstageIdentity`
set: only the identity field is added. -/
theorem populateIdentity_preserves_fields (client : IdentityClient)
    (r out : OAuthResponse)
    (h : (populateIdentity client r).result = Except.ok out) :
    out.providerInfo = r.providerInfo ∧ out.profile = r.profile ∧
      out.backstageIdentity.isSome = true := by
  obtain ⟨i, hi⟩ := populate_ok_shape h
  rw [hi]
  exact ⟨rfl, rfl, rfl⟩

/-- C7 witness: the concrete successful resolution of `sampleResponse`
against `okClient` keeps `providerInfo` and `profile` and adds the
identity. -/
theorem populateIdentity_preserves_fields_witness :
    (populateIdentity okClient sampleResponse).result = Except.ok foundResponse ∧
    (foundResponse.providerInfo = sampleResponse.providerInfo ∧
      foundResponse.profile = sampleResponse.profile ∧
      foundResponse.backstageIdentity.isSome = true) :=
  ⟨by decide,
    populateIdentity_preserves_fields okClient sampleResponse foundResponse (by decide)⟩

/-- C8, counterexample: with `NODE_ENV` unset (so not `development`),
a present `scaffolder.github` config whose initialization throws makes
the whole plugin creation fail with an initialization error — the
failure is not downgraded to a skip warning. -/
theorem registerOptionalProvider_rethrows_cex :
    registerOptionalProvider (none) ("github") (some ()) badInit =
      Except.error (initFailureMsg ("github") ("bad token")) := by
  decide

/-- C8 (amended): for each optional provider block (`github`,
`gitlab`, `azure`), when the provider's config is present but its
initialization throws, the failure is downgraded to a single skip
warning and the provider is skipped only when `NODE_ENV` is
`development`; in every other environment the block rethrows an
initialization error and plugin creation fails. -/
theorem registerOptionalProvider_catch_behavior {α β : Type}
    (nodeEnv : Option String) (providerName e : String) (cfg : α)
    (init : α → Except String β) (hfail : init cfg = Except.error e) :
    registerOptionalProvider nodeEnv providerName (some cfg) init =
      (if nodeEnv = some developmentEnv then
        Except.ok (none, [skipWarnMsg providerName e])
      else
        Except.error (initFailureMsg providerName e)) := by
  have h0 : registerOptionalProvider nodeEnv providerName (some cfg) init =
      match init cfg with
      | Except.ok reg => Except.ok (some reg, [])
      | Except.error err => catchProviderInit β nodeEnv providerName err := rfl
  rw [h0, hfail]
  unfold catchProviderInit
  by_cases h : nodeEnv = some developmentEnv <;> simp [h]

/-- C8 witness: in development mode, the failing `github` block is
skipped with exactly one warning and plugin creation continues. -/
theorem registerOptionalProvider_catch_behavior_witness :
    badInit () = Except.error ("bad token") ∧
    registerOptionalProvider (some developmentEnv) ("github") (some ()) badInit =
      Except.ok ((none : Option Unit), [skipWarnMsg ("github") ("bad token")]) := by
  refine ⟨rfl, ?_⟩
  have h := registerOptionalProvider_catch_behavior (some developmentEnv) ("github")
    ("bad token") () badInit rfl
  rw [h]
  simp

/-- C9: when the email contains no `@` character and the lookup fails,
the fallback id is the entire email string — `split` on an absent
separator returns the whole string first, so the fallback never fails
on malformed emails. -/
theorem populateIdentity_fallback_no_separator (client : IdentityClient)
    (r : OAuthResponse) (e err : String) (he : r.profile.email = some e)
    (hne : e ≠ "") (hno : ∀ c ∈ e.data, c ≠ '@')
    (hfail : client [(googleEmailKey, e)] = Except.error err) :
    (populateIdentity client r).result =
      Except.ok { r with backstageIdentity := some { id := e } } := by
  have hl : localPart e = e := by
    unfold localPart
    have ht : e.data.takeWhile (fun c => c ≠ '@') = e.data := by
      rw [List.takeWhile_eq_self_iff]
      intro c hc
      simpa using hno c hc
    rw [ht]
  rw [populate_fallback he hne hfail, hl]

/-- C9 witness: for the separator-free email `alice` with the failing
directory, the resolved id is the whole email `alice`. -/
theorem populateIdentity_fallback_no_separator_witness :
    plainEmailResponse.profile.email = some ("alice") ∧
    (populateIdentity failClient plainEmailResponse).result =
      Except.ok { plainEmailResponse with backstageIdentity := some { id := "alice" } } :=
  ⟨rfl, populateIdentity_fallback_no_separator failClient plainEmailResponse
    ("alice") ("User not found") rfl (by decide) (by decide) rfl⟩

/-- `handler` propagates a handshake error unchanged, with no logging. -/
theorem handler_strategy_error (client : IdentityClient) (e : String) :
    handler client (Except.error e) = (Except.error e, []) := rfl

/-- `handler` on a successful handshake is `populateIdentity` on the
strategy's response, paired with the refresh token. -/
theorem handler_strategy_ok (client : IdentityClient) (response : OAuthResponse)
    (tok : String) :
    handler client (Except.ok (response, tok)) =
      match (populateIdentity client response).result with
      | Except.error e => (Except.error e, (populateIdentity client response).logs)
      | Except.ok resp =>
          (Except.ok { response := resp, refreshToken := tok },
            (populateIdentity client response).logs) := rfl

/-- `refresh` propagates a token-refresh error unchanged. -/
theorem refresh_outcome_error (client : IdentityClient)
    (fetchProfile : String → Option String → Except String Profile) (e : String) :
    refresh client (Except.error e) fetchProfile = (Except.error e, []) := rfl

/-- `refresh` on refreshed tokens is `populateIdentity` on the
assembled response, once the profile fetch succeeds. -/
theorem refresh_outcome_ok (client : IdentityClient) (accessToken : String)
    (params : TokenParams)
    (fetchProfile : String → Option String → Except String Profile) :
    refresh client (Except.ok (accessToken, params)) fetchProfile =
      match fetchProfile accessToken params.id_token with
      | Except.error e => (Except.error e, [])
      | Except.ok profile =>
          ((populateIdentity client (refreshResponse accessToken params profile)).result,
            (populateIdentity client (refreshResponse accessToken params profile)).logs) := rfl

/-- C10: both public success paths route through `populateIdentity`:
every response successfully returned by `handler` or `refresh` has
`backstageIdentity` set, and both operations fail with the
missing-email error when the fetched profile lacks a (truthy) email. -/
theorem handler_refresh_route_identity (client : IdentityClient)
    (strategyOutcome : Except String (OAuthResponse × String))
    (refreshOutcome : Except String (String × TokenParams))
    (fetchProfile : String → Option String → Except String Profile) :
    (∀ hr logs, handler client strategyOutcome = (Except.ok hr, logs) →
        hr.response.backstageIdentity.isSome = true) ∧
    (∀ resp logs, refresh client refreshOutcome fetchProfile = (Except.ok resp, logs) →
        resp.backstageIdentity.isSome = true) ∧
    (∀ r tok, strategyOutcome = Except.ok (r, tok) →
        isMissingEmail r.profile.email = true →
        (handler client strategyOutcome).1 = Except.error missingEmailMsg) ∧
    (∀ accessToken params p, refreshOutcome = Except.ok (accessToken, params) →
        fetchProfile accessToken params.id_token = Except.ok p →
        isMissingEmail p.email = true →
        (refresh client refreshOutcome fetchProfile).1 = Except.error missingEmailMsg) := by
  refine ⟨?_, ?_, ?_, ?_⟩
  · intro hr logs h
    cases strategyOutcome with
    | error e =>
        rw [handler_strategy_error] at h
        simp at h
    | ok pair =>
        obtain ⟨response, tok⟩ := pair
        rw [handler_strategy_ok] at h
        cases hq : (populateIdentity client response).result with
        | error e => rw [hq] at h; simp at h
        | ok resp =>
            rw [hq] at h
            simp at h
            obtain ⟨i, hi⟩ := populate_ok_shape hq
            rw [← h.1]
            show resp.backstageIdentity.isSome = true
            rw [hi]
            rfl
  · intro resp logs h
    cases refreshOutcome with
    | error e =>
        rw [refresh_outcome_error] at h
        simp at h
    | ok pair =>
        obtain ⟨accessToken, params⟩ := pair
        rw [refresh_outcome_ok] at h
        cases hf : fetchProfile accessToken params.id_token with
        | error e => rw [hf] at h; simp at h
        | ok profile =>
            rw [hf] at h
            simp at h
            obtain ⟨i, hi⟩ := populate_ok_shape h.1
            rw [hi]
            rfl
  · intro r tok hs hmiss
    subst hs
    rw [handler_strategy_ok, populate_missing hmiss]
  · intro accessToken params p hs hf hmiss
    subst hs
    rw [refresh_outcome_ok, hf]
    have hm : isMissingEmail (refreshResponse accessToken params p).profile.email = true :=
      hmiss
    show ((populateIdentity client (refreshResponse accessToken params p)).result,
        (populateIdentity client (refreshResponse accessToken params p)).logs).1 =
      Except.error missingEmailMsg
    rw [populate_missing hm]

/-- C10 witness: a completed handshake whose profile has the empty
email makes `handler` fail with the missing-email error. -/
theorem handler_refresh_route_identity_witness :
    (handler failClient (Except.ok (emptyEmailResponse, "rtok"))).1 =
      Except.error missingEmailMsg := by
  have h := (handler_refresh_route_identity failClient
    (Except.ok (emptyEmailResponse, "rtok")) (Except.error ("no refresh"))
    (fun _ _ => Except.error ("no profile"))).2.2.1
  exact h emptyEmailResponse ("rtok") rfl (by decide)

end Backstage
